import Mathlib

/-!
Verification of the memdb storage engine's meta-record, file-initialization,
configuration-validation and error-equality logic, shallowly embedded from
the Rust sources (`src/meta.rs`, `src/inner.rs`, `src/db.rs`,
`src/config/mod.rs`, `src/errors.rs`).

Machine integers (`u8`, `u32`, `u64`) are modelled as `Nat` together with
explicit width bounds where they matter; byte strings are `List Nat`
(each element a byte value); the SHA3-256 digest used by `Meta::hash_self`
is an external crate, so it is abstracted as a function parameter
`h : HashFn` throughout.  Rust `panic!`/`assert!` aborts and `Result`
errors are distinguished by the `Outcome` type.
-/

namespace MemDB

/-- `src/defaults.rs`: the integrity-code constant stored in every meta
record (`DATABASE_INTEGRITY_CHECK = 0x00ABCDEF`, imported by `db.rs` as
`DATABASE_INTEGRITY_CODE`). -/
def DATABASE_INTEGRITY_CODE : Nat := 0x00ABCDEF

/-- `src/defaults.rs`: the on-disk format version constant. -/
def VERSION : Nat := 1

/-- `src/defaults.rs`: default number of pages allocated at creation. -/
def DEFAULT_NUM_PAGES : Nat := 32

/-- Big-endian fixed-width byte serialization: `beBytes w n` is the `w`-byte
big-endian encoding of `n` (modelling Rust's `uN::to_be_bytes`, which for an
in-range `n < 256^w` is exact). -/
def beBytes : Nat → Nat → List Nat
  | 0, _ => []
  | w + 1, n => beBytes w (n / 256) ++ [n % 256]

/-- A byte string, as produced by serialization. -/
abbrev ByteStr := List Nat

/-- The abstract 256-bit digest function (`sha3::Sha3_256` in the source,
an external crate): modelled as an arbitrary function on byte strings. -/
abbrev HashFn := ByteStr → ByteStr

/-- `src/bucket.rs`: `BucketMeta` — root page id plus the bucket's
auto-increment counter. -/
structure BucketMeta where
  root_page : Nat
  next_int : Nat
deriving DecidableEq, Repr

/-- `src/meta.rs`: the `Meta` record. `hash` is the stored 32-byte digest. -/
structure Meta where
  meta_page : Nat
  integrity_code : Nat
  version : Nat
  pagesize : Nat
  root : BucketMeta
  num_pages : Nat
  freelist_page : Nat
  tx_id : Nat
  hash : ByteStr
deriving DecidableEq, Repr

/-- One step of the `bytes::BufMut` writer used by `Meta::bytes`: each
`w.write(..)` call appends to the buffer accumulated so far. -/
def writerPush (buf : ByteStr) (bs : ByteStr) : ByteStr := buf ++ bs

/-- `src/meta.rs` `Meta::bytes`: serialize the fields through the buffer
writer, in source order — `meta_page`, `integrity_code`, `version` (each
`u32`, 4 bytes), then `root.root_page`, `root.next_int`, `num_pages`,
`freelist_page`, `tx_id` (each `u64`, 8 bytes), with `pagesize` (`u64`)
written between `version` and `root.root_page`.  The stored `hash` field is
never written. -/
def Meta.bytes (m : Meta) : ByteStr :=
  let buf : ByteStr := []
  let buf := writerPush buf (beBytes 4 m.meta_page)
  let buf := writerPush buf (beBytes 4 m.integrity_code)
  let buf := writerPush buf (beBytes 4 m.version)
  let buf := writerPush buf (beBytes 8 m.pagesize)
  let buf := writerPush buf (beBytes 8 m.root.root_page)
  let buf := writerPush buf (beBytes 8 m.root.next_int)
  let buf := writerPush buf (beBytes 8 m.num_pages)
  let buf := writerPush buf (beBytes 8 m.freelist_page)
  let buf := writerPush buf (beBytes 8 m.tx_id)
  buf

/-- `src/meta.rs` `Meta::hash_self`: the digest of `Meta::bytes`, with the
digest function abstracted as `h`. -/
def Meta.hash_self (m : Meta) (h : HashFn) : ByteStr := h m.bytes

/-- The hash component of meta validity: the stored hash equals the hash
recomputed over the record's own fields. -/
def Meta.hashOk (m : Meta) (h : HashFn) : Bool := m.hash == m.hash_self h

/-- Modelled from the spec: `Meta::valid` is called from `Inner::meta`
(`src/inner.rs`) but its definition is not among the provided sources.
Spec §3: "a meta record is *valid* iff its integrity code matches the
expected constant, its stored page size matches the runtime page size, and
its stored hash equals the hash recomputed over its own fields." -/
def Meta.valid (m : Meta) (runtime_pagesize : Nat) (h : HashFn) : Bool :=
  m.integrity_code == DATABASE_INTEGRITY_CODE
    && m.pagesize == runtime_pagesize
    && m.hashOk h

/-- `std::io::ErrorKind`, reduced to the kinds the sources mention. -/
inductive IoKind where
  | other
  | notFound
  | permissionDenied
deriving DecidableEq, Repr

/-- `std::alloc::LayoutError`: an opaque payload carried by `Error::Alloc`. -/
structure LayoutError where
deriving DecidableEq, Repr

/-- `src/errors.rs`: the public `Error` enum. -/
inductive Error where
  | BucketExists
  | BucketMissing
  | KeyValueMissing
  | IncompatibleValue
  | ReadOnlyTx
  | Io (kind : IoKind) (context : String)
  | Sync (context : String)
  | InvalidDB (message : String)
  | Alloc (e : LayoutError)
  | Unsupported (message : String)
deriving DecidableEq, Repr

/-- `src/errors.rs` `impl PartialEq for Error`: the hand-written equality.
`Io` and `Alloc` values fall through to the catch-all `false` arm. -/
def Error.eq : Error → Error → Bool
  | .BucketExists, .BucketExists => true
  | .BucketMissing, .BucketMissing => true
  | .KeyValueMissing, .KeyValueMissing => true
  | .IncompatibleValue, .IncompatibleValue => true
  | .ReadOnlyTx, .ReadOnlyTx => true
  | .Sync s1, .Sync s2 => s1 == s2
  | .InvalidDB s1, .InvalidDB s2 => s1 == s2
  | .Unsupported s1, .Unsupported s2 => s1 == s2
  | _, _ => false

/-- The result of running a fallible Rust function: a normal value, a
returned `Err`, or a `panic!`/failed `assert!` abort. -/
inductive Outcome (α : Type) where
  | ok (value : α)
  | err (e : Error)
  | panicked (msg : String)
deriving DecidableEq, Repr

/-- `src/inner.rs` `Inner::meta`: read both meta slots (their decoded
contents are the arguments `m1`, `m2`), validate each, and select the
current one.  The `assert_eq!` calls on `pagesize` and the
`panic!("Invalid meta pages")` arm are modelled as `Outcome.panicked`. -/
def Inner.meta (m1 m2 : Meta) (pagesize : Nat) (h : HashFn) : Outcome Meta :=
  if m1.valid pagesize h && !(m1.pagesize == pagesize) then
    .panicked "Invalid pagesize from meta_1"
  else
    match m1.valid pagesize h, m2.valid pagesize h with
    | true, true =>
      if !(m1.pagesize == pagesize) then .panicked "Invalid pagesize from meta1"
      else if !(m2.pagesize == pagesize) then .panicked "Invalid pagesize from meta2"
      else if m2.tx_id < m1.tx_id then .ok m1 else .ok m2
    | true, false =>
      if !(m1.pagesize == pagesize) then .panicked "Invalid pagesize from meta1"
      else .ok m1
    | false, true =>
      if !(m2.pagesize == pagesize) then .panicked "Invalid pagesize from meta2"
      else .ok m2
    | false, false => .panicked "Invalid meta pages"

/-- `src/page.rs`: the page type tags. -/
def TYPE_BRANCH : Nat := 0x01

/-- `src/page.rs`: leaf page type tag. -/
def TYPE_LEAF : Nat := 0x02

/-- `src/page.rs`: meta page type tag. -/
def TYPE_META : Nat := 0x03

/-- `src/page.rs`: freelist page type tag. -/
def TYPE_FREELIST : Nat := 0x04

/-- The all-zero meta record: what `meta_mut()` sees on the zero-initialized
buffer of `init_file` before any field assignment (the stored hash region is
32 zero bytes). -/
def zeroMeta : Meta :=
  { meta_page := 0, integrity_code := 0, version := 0, pagesize := 0
  , root := { root_page := 0, next_int := 0 }
  , num_pages := 0, freelist_page := 0, tx_id := 0
  , hash := List.replicate 32 0 }

/-- `src/page.rs` `Page` header, with the typed payload made explicit: a meta
page carries a `Meta` record; freelist/leaf pages here carry only the header
fields that `init_file` assigns. -/
structure PageRec where
  id : Nat := 0
  page_type : Nat := 0
  count : Nat := 0
  overflow : Nat := 0
  meta : Meta := zeroMeta
deriving DecidableEq, Repr

/-- The file-level side effects `init_file` performs, in order. -/
inductive FileEv where
  | allocate (bytes : Nat)
  | writeAll
  | flush
  | syncAll
deriving DecidableEq, Repr

/-- The state `init_file` leaves behind: the four pages written to offsets
`0..4` (in page units) of the zeroed buffer, and the file operations issued. -/
structure InitResult where
  page0 : PageRec
  page1 : PageRec
  page2 : PageRec
  page3 : PageRec
  events : List FileEv
deriving Repr

/-- `src/db.rs` `init_file`, body of the `for i in 0..2` loop: the meta page
written to slot `i`.  The source sets `page.id = 1` for both iterations, then
fills the meta record (`meta_page = i`, constants, `pagesize`,
`freelist_page = 2`, `root = {3, 0}`, `num_pages = 4`) and stores
`hash_self`; `tx_id` is never assigned and stays at its zeroed value `0`. -/
def initMetaPage (i : Nat) (pagesize : Nat) (h : HashFn) : PageRec :=
  let m : Meta :=
    { zeroMeta with
        meta_page := i
      , integrity_code := DATABASE_INTEGRITY_CODE
      , version := VERSION
      , pagesize := pagesize
      , freelist_page := 2
      , root := { root_page := 3, next_int := 0 }
      , num_pages := 4 }
  { id := 1, page_type := TYPE_META, meta := { m with hash := m.hash_self h } }

/-- `src/db.rs` `init_file`: allocate `pagesize * num_pages` bytes, write the
two meta pages, the empty freelist page (id 2) and the empty root leaf page
(id 3) into the zeroed 4-page buffer, then `write_all`, `flush`, `sync_all`. -/
def init_file (pagesize num_pages : Nat) (h : HashFn) : InitResult :=
  { page0 := initMetaPage 0 pagesize h
  , page1 := initMetaPage 1 pagesize h
  , page2 := { id := 2, page_type := TYPE_FREELIST, count := 0 }
  , page3 := { id := 3, page_type := TYPE_LEAF, count := 0 }
  , events := [.allocate (pagesize * num_pages), .writeAll, .flush, .syncAll] }

/-- `src/db.rs` `DBOpenOptions::page_size`: the builder panics below the
1024-byte minimum and otherwise records the requested page size unchanged. -/
def DBOpenOptions.page_size (pagesize : Nat) : Outcome Nat :=
  if pagesize < 1024 then .panicked "Pagesize must be 1024 bytes minimum"
  else .ok pagesize

/-- Auxiliary structural recursion for `countOnes`: `fuel` bounds the number
of halving steps (any `fuel ≥ n` is exact, since `n` halves to `0` within
`n` steps). -/
def countOnesAux : Nat → Nat → Nat
  | 0, _ => 0
  | fuel + 1, n => if n = 0 then 0 else n % 2 + countOnesAux fuel (n / 2)

/-- `usize::count_ones`: the number of set bits in the binary
representation. -/
def countOnes (n : Nat) : Nat := countOnesAux n n

/-- `src/config/mod.rs`: the configuration fields `Config::validate`
consults. -/
structure Config where
  segment_size : Nat
deriving DecidableEq, Repr

/-- `src/config/mod.rs` `Config::validate`: the three `supported!` guards on
`segment_size`, each returning `Error::Unsupported` with its message. -/
def Config.validate (c : Config) : Outcome Unit :=
  if !(countOnes c.segment_size == 1) then
    .err (.Unsupported "segment_size should be a power of 2")
  else if !(256 ≤ c.segment_size) then
    .err (.Unsupported "segment_size should be hundreds of kb at minimum, and we won't start if below 256")
  else if !(c.segment_size ≤ 2 ^ 24) then
    .err (.Unsupported "segment_size should be <= 16mb")
  else .ok ()

/-- `src/config/mod.rs` `Config::try_lock`: under the testing-only cfg
features the blocking `lock_exclusive` is used (it waits until the lock is
available, so it succeeds); otherwise the non-blocking `try_lock_exclusive`
is used, which fails exactly when another holder already has the exclusive
lock (`lockHeld`).  A failed acquisition is mapped to
`Error::Io(ErrorKind::Other, "could not acquire database file lock")`. -/
def Config.try_lock (testingFeatures : Bool) (lockHeld : Bool) : Outcome Unit :=
  let acquired : Bool := if testingFeatures then true else !lockHeld
  if !acquired then
    .err (.Io .other "could not acquire database file lock")
  else .ok ()

/-- The nine fields of a `Meta` record that `Meta::bytes` serializes
(everything except the stored `hash`). -/
inductive MetaField where
  | meta_page
  | integrity_code
  | version
  | pagesize
  | root_page
  | next_int
  | num_pages
  | freelist_page
  | tx_id
deriving DecidableEq, Repr

/-- Serialized width in bytes of each hashed field: the three `u32` fields
take 4 bytes, the `u64` fields take 8. -/
def MetaField.width : MetaField → Nat
  | .meta_page => 4
  | .integrity_code => 4
  | .version => 4
  | _ => 8

/-- Read one hashed field of a `Meta` record. -/
def Meta.getField (m : Meta) : MetaField → Nat
  | .meta_page => m.meta_page
  | .integrity_code => m.integrity_code
  | .version => m.version
  | .pagesize => m.pagesize
  | .root_page => m.root.root_page
  | .next_int => m.root.next_int
  | .num_pages => m.num_pages
  | .freelist_page => m.freelist_page
  | .tx_id => m.tx_id

/-- Overwrite one hashed field of a `Meta` record, leaving every other field
(including the stored `hash`) unchanged: the "mutate a single field after
hashing" operation. -/
def Meta.setField (m : Meta) : MetaField → Nat → Meta
  | .meta_page, v => { m with meta_page := v }
  | .integrity_code, v => { m with integrity_code := v }
  | .version, v => { m with version := v }
  | .pagesize, v => { m with pagesize := v }
  | .root_page, v => { m with root := { m.root with root_page := v } }
  | .next_int, v => { m with root := { m.root with next_int := v } }
  | .num_pages, v => { m with num_pages := v }
  | .freelist_page, v => { m with freelist_page := v }
  | .tx_id, v => { m with tx_id := v }

/-- Well-formedness of a `Meta` record: every numeric field fits its machine
width (`u32` for the first three, `u64` for the rest), as the Rust types
guarantee. -/
def Meta.WF (m : Meta) : Prop :=
  m.meta_page < 256 ^ 4 ∧ m.integrity_code < 256 ^ 4 ∧ m.version < 256 ^ 4 ∧
  m.pagesize < 256 ^ 8 ∧ m.root.root_page < 256 ^ 8 ∧ m.root.next_int < 256 ^ 8 ∧
  m.num_pages < 256 ^ 8 ∧ m.freelist_page < 256 ^ 8 ∧ m.tx_id < 256 ^ 8

instance (m : Meta) : Decidable m.WF := by unfold Meta.WF; infer_instance

/-- The meta byte layout as the spec words it (§4.2): the plain concatenation
of `meta_page`, `integrity_code`, `version`, `pagesize`, `root_page`,
`next_int`, `num_pages`, `freelist_page`, `tx_id`, each big-endian at its
fixed width, with the stored hash excluded.  Refinement target for
`Meta.bytes`. -/
def metaBytesSpec (m : Meta) : ByteStr :=
  beBytes 4 m.meta_page ++ beBytes 4 m.integrity_code ++ beBytes 4 m.version ++
  beBytes 8 m.pagesize ++ beBytes 8 m.root.root_page ++ beBytes 8 m.root.next_int ++
  beBytes 8 m.num_pages ++ beBytes 8 m.freelist_page ++ beBytes 8 m.tx_id

/-- A concrete well-formed meta record (slot 0) whose stored hash is correct
under the identity digest; used to instantiate hypotheses concretely. -/
def sampleMeta : Meta :=
  let base : Meta :=
    { meta_page := 0, integrity_code := DATABASE_INTEGRITY_CODE, version := 1
    , pagesize := 1024, root := { root_page := 3, next_int := 0 }
    , num_pages := 4, freelist_page := 2, tx_id := 5, hash := [] }
  { base with hash := base.bytes }

/-- A second concrete valid meta record (slot 1) with the same `tx_id` as
`sampleMeta`. -/
def sampleMeta2 : Meta :=
  let base : Meta :=
    { meta_page := 1, integrity_code := DATABASE_INTEGRITY_CODE, version := 1
    , pagesize := 1024, root := { root_page := 3, next_int := 0 }
    , num_pages := 4, freelist_page := 2, tx_id := 5, hash := [] }
  { base with hash := base.bytes }

theorem length_beBytes : ∀ (w n : Nat), (beBytes w n).length = w
  | 0, _ => rfl
  | w + 1, n => by simp [beBytes, length_beBytes w (n / 256)]

theorem beBytes_inj : ∀ (w n m : Nat), n < 256 ^ w → m < 256 ^ w →
    beBytes w n = beBytes w m → n = m
  | 0, n, m, hn, hm, _ => by
    simp only [pow_zero, Nat.lt_one_iff] at hn hm
    omega
  | w + 1, n, m, hn, hm, heq => by
    simp only [beBytes] at heq
    obtain ⟨h1, h2⟩ := List.append_inj heq (by simp [length_beBytes])
    have hn' : n / 256 < 256 ^ w := by
      rw [Nat.div_lt_iff_lt_mul (by norm_num)]
      calc n < 256 ^ (w + 1) := hn
        _ = 256 ^ w * 256 := pow_succ 256 w
    have hm' : m / 256 < 256 ^ w := by
      rw [Nat.div_lt_iff_lt_mul (by norm_num)]
      calc m < 256 ^ (w + 1) := hm
        _ = 256 ^ w * 256 := pow_succ 256 w
    have hd := beBytes_inj w (n / 256) (m / 256) hn' hm' h1
    have hmod : n % 256 = m % 256 := by simpa using h2
    omega

theorem bytes_eq_spec (m : Meta) : m.bytes = metaBytesSpec m := by
  simp [Meta.bytes, metaBytesSpec, writerPush, List.append_assoc]

theorem length_bytes (m : Meta) : m.bytes.length = 60 := by
  rw [bytes_eq_spec]
  simp [metaBytesSpec, length_beBytes]

theorem valid_pagesize {m : Meta} {ps : Nat} {h : HashFn}
    (hv : m.valid ps h = true) : m.pagesize = ps := by
  simp only [Meta.valid, Bool.and_eq_true, beq_iff_eq] at hv
  exact hv.1.2

theorem bytes_fields_inj {m1 m2 : Meta} (h1 : m1.WF) (h2 : m2.WF)
    (heq : m1.bytes = m2.bytes) : ∀ f, m1.getField f = m2.getField f := by
  obtain ⟨a1, a2, a3, a4, a5, a6, a7, a8, a9⟩ := h1
  obtain ⟨b1, b2, b3, b4, b5, b6, b7, b8, b9⟩ := h2
  rw [bytes_eq_spec, bytes_eq_spec] at heq
  unfold metaBytesSpec at heq
  obtain ⟨heq, e9⟩ := List.append_inj heq (by simp [length_beBytes])
  obtain ⟨heq, e8⟩ := List.append_inj heq (by simp [length_beBytes])
  obtain ⟨heq, e7⟩ := List.append_inj heq (by simp [length_beBytes])
  obtain ⟨heq, e6⟩ := List.append_inj heq (by simp [length_beBytes])
  obtain ⟨heq, e5⟩ := List.append_inj heq (by simp [length_beBytes])
  obtain ⟨heq, e4⟩ := List.append_inj heq (by simp [length_beBytes])
  obtain ⟨heq, e3⟩ := List.append_inj heq (by simp [length_beBytes])
  obtain ⟨e1, e2⟩ := List.append_inj heq (by simp [length_beBytes])
  intro f
  cases f with
  | meta_page => exact beBytes_inj 4 _ _ a1 b1 e1
  | integrity_code => exact beBytes_inj 4 _ _ a2 b2 e2
  | version => exact beBytes_inj 4 _ _ a3 b3 e3
  | pagesize => exact beBytes_inj 8 _ _ a4 b4 e4
  | root_page => exact beBytes_inj 8 _ _ a5 b5 e5
  | next_int => exact beBytes_inj 8 _ _ a6 b6 e6
  | num_pages => exact beBytes_inj 8 _ _ a7 b7 e7
  | freelist_page => exact beBytes_inj 8 _ _ a8 b8 e8
  | tx_id => exact beBytes_inj 8 _ _ a9 b9 e9

theorem WF_setField {m : Meta} (hwf : m.WF) (f : MetaField) (v : Nat)
    (hv : v < 256 ^ f.width) : (m.setField f v).WF := by
  obtain ⟨a1, a2, a3, a4, a5, a6, a7, a8, a9⟩ := hwf
  cases f with
  | meta_page => exact ⟨hv, a2, a3, a4, a5, a6, a7, a8, a9⟩
  | integrity_code => exact ⟨a1, hv, a3, a4, a5, a6, a7, a8, a9⟩
  | version => exact ⟨a1, a2, hv, a4, a5, a6, a7, a8, a9⟩
  | pagesize => exact ⟨a1, a2, a3, hv, a5, a6, a7, a8, a9⟩
  | root_page => exact ⟨a1, a2, a3, a4, hv, a6, a7, a8, a9⟩
  | next_int => exact ⟨a1, a2, a3, a4, a5, hv, a7, a8, a9⟩
  | num_pages => exact ⟨a1, a2, a3, a4, a5, a6, hv, a8, a9⟩
  | freelist_page => exact ⟨a1, a2, a3, a4, a5, a6, a7, hv, a9⟩
  | tx_id => exact ⟨a1, a2, a3, a4, a5, a6, a7, a8, hv⟩

theorem getField_setField (m : Meta) (f : MetaField) (v : Nat) :
    (m.setField f v).getField f = v := by
  cases f <;> rfl

theorem setField_hash (m : Meta) (f : MetaField) (v : Nat) :
    (m.setField f v).hash = m.hash := by
  cases f <;> rfl

/-- C1: when both meta slots fail validation, `Inner::meta` does not return
the `Error::InvalidDB` error the spec (and `errors.rs`'s own documentation of
`InvalidDB`) prescribes — it aborts with `panic!("Invalid meta pages")`.
Evaluated here at two all-zero (hence invalid) meta slot contents. -/
theorem inner_meta_both_invalid_panics :
    Inner.meta zeroMeta zeroMeta 1024 (fun b => b) =
      .panicked "Invalid meta pages" := by
  rfl

/-- C9: when both meta slots are valid and carry the same `tx_id`,
`Inner::meta` returns the record read from the second slot (page 1), because
the `tx_id` comparison `meta_1.tx_id > meta_2.tx_id` is strict. -/
theorem inner_meta_equal_txid_returns_slot2 (m1 m2 : Meta) (ps : Nat)
    (h : HashFn) (h1 : m1.valid ps h = true) (h2 : m2.valid ps h = true)
    (htx : m1.tx_id = m2.tx_id) : Inner.meta m1 m2 ps h = .ok m2 := by
  have hp1 := valid_pagesize h1
  have hp2 := valid_pagesize h2
  simp [Inner.meta, h1, h2, hp1, hp2, htx]

/-- Witness for C9: two concrete valid meta records with equal `tx_id` under
the identity digest; `Inner::meta` picks the slot-1 record. -/
theorem inner_meta_equal_txid_returns_slot2_witness :
    Inner.meta sampleMeta sampleMeta2 1024 (fun b => b) = .ok sampleMeta2 :=
  inner_meta_equal_txid_returns_slot2 sampleMeta sampleMeta2 1024 (fun b => b)
    (by decide) (by decide) (by decide)

/-- C3: if a meta record's stored hash equals the hash recomputed over its
fields, then mutating any single hashed field to a different (in-range) value
makes the stored-hash-equals-recomputed-hash check return false.  The SHA3
digest of the source is abstracted as any function `h` injective on the
60-byte serialized layout (spec §4.2 requires the digest to be "deterministic
and injective over the above byte layout"). -/
theorem meta_hash_single_field_mutation (h : HashFn)
    (hinj : ∀ a b : ByteStr, a.length = 60 → b.length = 60 → h a = h b → a = b)
    (m : Meta) (hwf : m.WF) (hstored : m.hash = m.hash_self h)
    (f : MetaField) (v : Nat) (hv : v < 256 ^ f.width)
    (hne : v ≠ m.getField f) : (m.setField f v).hashOk h = false := by
  have hbne : (m.setField f v).bytes ≠ m.bytes := by
    intro hbe
    have hgf := bytes_fields_inj (WF_setField hwf f v hv) hwf hbe f
    rw [getField_setField] at hgf
    exact hne hgf
  have hhne : h (m.setField f v).bytes ≠ h m.bytes :=
    fun he => hbne (hinj _ _ (length_bytes _) (length_bytes _) he)
  have hst : (m.setField f v).hash = h m.bytes := by
    rw [setField_hash, hstored]; rfl
  simp only [Meta.hashOk, Meta.hash_self, hst]
  exact beq_eq_false_iff_ne.mpr fun e => hhne e.symm

/-- Witness for C3: mutate `tx_id` of a concrete hashed record from 5 to 6
under the identity digest (injective outright); the hash check fails. -/
theorem meta_hash_single_field_mutation_witness :
    (sampleMeta.setField .tx_id 6).hashOk (fun b => b) = false :=
  meta_hash_single_field_mutation (fun b => b) (fun _ _ _ _ hh => hh)
    sampleMeta (by decide) (by decide) .tx_id 6 (by decide) (by decide)

/-- C4: the byte string `Meta::bytes` feeds to the hash is exactly the
concatenation of `meta_page`, `integrity_code`, `version`, `pagesize`,
`root_page`, `next_int`, `num_pages`, `freelist_page`, `tx_id`, in that
order, each big-endian at its fixed width (`metaBytesSpec`), and is
unchanged by any value of the stored `hash` field. -/
theorem meta_bytes_layout (m : Meta) (x : ByteStr) :
    m.bytes = metaBytesSpec m ∧ Meta.bytes { m with hash := x } = m.bytes :=
  ⟨bytes_eq_spec m, rfl⟩

/-- C2 counterexample: the two meta records `init_file` writes to pages 0
and 1 are not identical — they differ in their `meta_page` field (0 vs 1)
and consequently in their stored hash. -/
theorem init_file_metas_not_identical :
    (init_file 1024 32 (fun b => b)).page0.meta ≠
      (init_file 1024 32 (fun b => b)).page1.meta := by
  decide

/-- C2 (amended): `init_file` writes pages 0 and 1 as valid meta records
that are identical except for the slot index `meta_page` (0 and 1) and the
hash recomputed over it, with `tx_id = 0`, root bucket at fixed initial page
3, freelist page 2 and page count 4; page 2 is an empty freelist page and
page 3 an empty leaf page; and the file operations end with `flush` then
`sync_all` after the single `write_all`. -/
theorem init_file_contract (ps np : Nat) (h : HashFn) :
    (init_file ps np h).page0.page_type = TYPE_META
    ∧ (init_file ps np h).page1.page_type = TYPE_META
    ∧ (init_file ps np h).page0.meta.valid ps h = true
    ∧ (init_file ps np h).page1.meta.valid ps h = true
    ∧ (init_file ps np h).page0.meta.tx_id = 0
    ∧ (init_file ps np h).page1.meta.tx_id = 0
    ∧ (init_file ps np h).page0.meta.meta_page = 0
    ∧ (init_file ps np h).page1.meta.meta_page = 1
    ∧ (init_file ps np h).page0.meta.root = { root_page := 3, next_int := 0 }
    ∧ (init_file ps np h).page0.meta.freelist_page = 2
    ∧ (init_file ps np h).page0.meta.num_pages = 4
    ∧ (init_file ps np h).page0.meta.version = VERSION
    ∧ (init_file ps np h).page0.meta.pagesize = ps
    ∧ (init_file ps np h).page1.meta =
        { (init_file ps np h).page0.meta with
            meta_page := 1
          , hash := Meta.hash_self
              { (init_file ps np h).page0.meta with meta_page := 1 } h }
    ∧ (init_file ps np h).page2 = { id := 2, page_type := TYPE_FREELIST, count := 0 }
    ∧ (init_file ps np h).page3 = { id := 3, page_type := TYPE_LEAF, count := 0 }
    ∧ (init_file ps np h).events = [.allocate (ps * np), .writeAll, .flush, .syncAll] := by
  refine ⟨rfl, rfl, ?_, ?_, rfl, rfl, rfl, rfl, rfl, rfl, rfl, rfl, rfl, rfl, rfl, rfl, rfl⟩
  · simp [init_file, initMetaPage, Meta.valid, Meta.hashOk, Meta.hash_self,
      Meta.bytes, writerPush]
  · simp [init_file, initMetaPage, Meta.valid, Meta.hashOk, Meta.hash_self,
      Meta.bytes, writerPush]

/-- C5: the page written at byte offset 0 by `init_file` carries id 1, not
its own storage offset divided by the page size (`0 / 1024 = 0`): the
`for i in 0..2` loop assigns `page.id = 1` on both iterations, contradicting
the invariant (and the comment on `Page::id` in `src/page.rs`). -/
theorem init_file_page0_id_mismatch :
    (init_file 1024 32 (fun b => b)).page0.id = 1
    ∧ (init_file 1024 32 (fun b => b)).page0.id ≠ 0 / 1024 := by
  decide

/-- C6: with the non-blocking build (testing features off), `Config::try_lock`
on a file whose exclusive lock is already held returns the distinct
`Error::Io(ErrorKind::Other, "could not acquire database file lock")` error
instead of blocking; when the lock is free it succeeds. -/
theorem try_lock_nonblocking_io_error (lockHeld : Bool) :
    Config.try_lock false lockHeld =
      (if lockHeld then
        .err (.Io .other "could not acquire database file lock")
      else .ok ()) := by
  cases lockHeld <;> rfl

/-- C7 counterexample: a requested page size of 512 is below the supported
minimum yet the builder panics rather than returning `Unsupported`, and the
non-power-of-two page size 1536 is accepted outright — no `Unsupported`
error arises from page sizes. -/
theorem page_size_no_unsupported_error :
    DBOpenOptions.page_size 512 = .panicked "Pagesize must be 1024 bytes minimum"
    ∧ DBOpenOptions.page_size 1536 = .ok 1536
    ∧ countOnes 1536 = 2 := by
  decide

/-- C7 (amended): the `Unsupported` range checks apply to `segment_size`
(power of two, ≥ 256, ≤ 16 MiB), each failing with its `Unsupported`
message; the page size is checked only against the 1024-byte minimum, by a
panic in the builder, and need not be a power of two. -/
theorem config_validate_unsupported :
    (∀ c : Config, countOnes c.segment_size ≠ 1 →
      c.validate = .err (.Unsupported "segment_size should be a power of 2"))
    ∧ (∀ c : Config, countOnes c.segment_size = 1 → c.segment_size < 256 →
      c.validate = .err (.Unsupported
        "segment_size should be hundreds of kb at minimum, and we won't start if below 256"))
    ∧ (∀ c : Config, countOnes c.segment_size = 1 → 256 ≤ c.segment_size →
        2 ^ 24 < c.segment_size →
      c.validate = .err (.Unsupported "segment_size should be <= 16mb"))
    ∧ (∀ c : Config, countOnes c.segment_size = 1 → 256 ≤ c.segment_size →
        c.segment_size ≤ 2 ^ 24 → c.validate = .ok ())
    ∧ (∀ pagesize : Nat, 1024 ≤ pagesize →
      DBOpenOptions.page_size pagesize = .ok pagesize)
    ∧ (∀ pagesize : Nat, pagesize < 1024 →
      DBOpenOptions.page_size pagesize =
        .panicked "Pagesize must be 1024 bytes minimum") := by
  refine ⟨?_, ?_, ?_, ?_, ?_, ?_⟩
  · intro c hc
    simp [Config.validate, hc]
  · intro c hc hlt
    simp [Config.validate, hc, hlt, Nat.not_le.mpr hlt]
  · intro c hc hge hgt
    have hgt' : ¬ c.segment_size ≤ 16777216 := by
      norm_num at hgt
      omega
    simp [Config.validate, hc, hge, hgt']
  · intro c hc hge hle
    have hle' : c.segment_size ≤ 16777216 := by
      norm_num at hle
      exact hle
    simp [Config.validate, hc, hge, hle']
  · intro pagesize hge
    simp [DBOpenOptions.page_size, Nat.not_lt.mpr hge]
  · intro pagesize hlt
    simp [DBOpenOptions.page_size, hlt]

/-- Witness for C7 (amended): concrete segment sizes 300 (not a power of
two) and 512 (supported), and concrete page sizes 4096 and 100. -/
theorem config_validate_unsupported_witness :
    Config.validate { segment_size := 300 } =
      .err (.Unsupported "segment_size should be a power of 2")
    ∧ Config.validate { segment_size := 512 } = .ok ()
    ∧ DBOpenOptions.page_size 4096 = .ok 4096
    ∧ DBOpenOptions.page_size 100 =
        .panicked "Pagesize must be 1024 bytes minimum" :=
  ⟨config_validate_unsupported.1 { segment_size := 300 } (by decide),
   config_validate_unsupported.2.2.2.1 { segment_size := 512 } (by decide)
     (by decide) (by decide),
   config_validate_unsupported.2.2.2.2.1 4096 (by decide),
   config_validate_unsupported.2.2.2.2.2 100 (by decide)⟩

/-- C10: the hand-written `PartialEq` on `Error` is not reflexive on all
variants: any two `Io` values (and any two `Alloc` values) compare unequal,
even a value against itself, while the precondition-violation variants
compare equal to themselves. -/
theorem error_eq_io_alloc_never_equal :
    (∀ (k1 : IoKind) (c1 : String) (k2 : IoKind) (c2 : String),
      Error.eq (.Io k1 c1) (.Io k2 c2) = false)
    ∧ (∀ a1 a2 : LayoutError, Error.eq (.Alloc a1) (.Alloc a2) = false)
    ∧ Error.eq .BucketExists .BucketExists = true
    ∧ Error.eq .BucketMissing .BucketMissing = true
    ∧ Error.eq .KeyValueMissing .KeyValueMissing = true
    ∧ Error.eq .IncompatibleValue .IncompatibleValue = true
    ∧ Error.eq .ReadOnlyTx .ReadOnlyTx = true :=
  ⟨fun _ _ _ _ => rfl, fun _ _ => rfl, rfl, rfl, rfl, rfl, rfl⟩

end MemDB
